import Mathlib

/-!
Shallow embedding of the HiveMind core (session/participant registry, agent
hub task dispatch, budget gate) and verification of its specification.

JavaScript `Map` objects are modelled as insertion-ordered association lists
whose keys are unique (all maps in the source are built exclusively through
`set` and `delete` from the empty map, so keys never repeat).  `Map.get`,
`Map.set` and `Map.delete` become `mapGet`, `mapSet` and `mapDelete` below;
`mapSet` replaces an existing key in place (keeping insertion order) and
otherwise appends, exactly as `Map.set` does.

Wall-clock reads (`Date.now()`) and generated identifiers
(`crypto.randomUUID()`, the random session id) are passed in as explicit
parameters of the operations that perform them.  A thrown JavaScript value is
either an `Error` carrying a message or some other value (`Thrown` below),
mirroring the `error instanceof Error ? error.message : ...` discrimination in
the source.  Methods that `throw` return an `Except` value instead, paired
with the (possibly updated) state, so that state on the throwing paths is
preserved exactly as in the source.
-/

namespace HiveMind

/-! ### Association-list model of JavaScript Map -/

def mapGet {α : Type} : List (String × α) → String → Option α
  | [], _ => none
  | q :: m, k => if q.1 = k then some q.2 else mapGet m k

def mapSet {α : Type} : List (String × α) → String → α → List (String × α)
  | [], k, v => [(k, v)]
  | q :: m, k, v => if q.1 = k then (k, v) :: m else q :: mapSet m k v

def mapDelete {α : Type} : List (String × α) → String → List (String × α)
  | [], _ => []
  | q :: m, k => if q.1 = k then mapDelete m k else q :: mapDelete m k

/-! ### Agent Hub (src/hivemind/core/AgentHub.ts)

The hub stores agents as an id-keyed map and dispatches tasks to them.  For
the task-lifecycle claims the agent is exactly what the spec calls it: an
opaque capability `execute(input) → output, asynchronously, fallible`.  A
fallible invocation either returns an output string or throws a JavaScript
value. -/

inductive Thrown where
  | errorObj (msg : String)
  | nonError
  deriving DecidableEq

inductive ExecResult where
  | ok (out : String)
  | thrown (e : Thrown)

structure HubAgent where
  id : String
  name : String
  exec : String → ExecResult

inductive TaskStatus where
  | pending
  | running
  | completed
  | failed
  deriving DecidableEq

structure AgentTask where
  id : String
  agentId : String
  input : String
  status : TaskStatus
  result : Option String
  error : Option String
  startTime : Option Nat
  endTime : Option Nat
  deriving DecidableEq

structure AgentHub where
  agents : List (String × HubAgent)
  tasks : List (String × AgentTask)

/-- `error instanceof Error ? error.message : ...` from `submitTask`. -/
def errMessage : Thrown → String
  | .errorObj m => m
  | .nonError => "Unknown error"

/-- `AgentHub.submitTask`.  `taskId` stands for the `crypto.randomUUID()`
value, `t1` and `t2` for the two `Date.now()` reads (creation and the
`finally` clause).  The thrown `Agent ... not found` becomes `Except.error`,
returned together with the unchanged hub state. -/
def AgentHub.submitTask (hub : AgentHub) (taskId agentId input : String)
    (t1 t2 : Nat) : Except String AgentTask × AgentHub :=
  match mapGet hub.agents agentId with
  | none => (Except.error ("Agent " ++ agentId ++ " not found"), hub)
  | some agent =>
      let task0 : AgentTask :=
        { id := taskId, agentId := agentId, input := input, status := TaskStatus.pending,
          result := none, error := none, startTime := some t1, endTime := none }
      let tasks1 := mapSet hub.tasks taskId task0
      let final : AgentTask :=
        match agent.exec input with
        | ExecResult.ok out =>
            { task0 with status := TaskStatus.completed, result := some out,
                         endTime := some t2 }
        | ExecResult.thrown e =>
            { task0 with status := TaskStatus.failed, error := some (errMessage e),
                         endTime := some t2 }
      (Except.ok final, { hub with tasks := mapSet tasks1 taskId final })

/-! ### Built-in agent variants (src/hivemind/agents/Agent.ts)

The four concrete classes differ only in static metadata and the label of
the placeholder echo; their `execute` bodies are otherwise identical, so the
embedding carries a variant tag and one shared `execute` body.  The agent
registry is represented, where needed, by its insertion-ordered value list
(the order `Array.from(map.values())` iterates in). -/

inductive Role where
  | user
  | assistant
  | system
  deriving DecidableEq

structure AgentMessage where
  role : Role
  content : String
  timestamp : Nat
  deriving DecidableEq

inductive Variant where
  | architect
  | devilsAdvocate
  | historian
  | scribe
  deriving DecidableEq

/-- An apostrophe character, spelled via its code point. -/
def apos : String := String.singleton (Char.ofNat 39)

def variantName : Variant → String
  | .architect => "The Architect"
  | .devilsAdvocate => "The Devil" ++ apos ++ "s Advocate"
  | .historian => "The Historian"
  | .scribe => "The Scribe"

/-- The label of each placeholder response. -/
def variantTag : Variant → String
  | .architect => "[Architect Analysis]"
  | .devilsAdvocate => "[Chaos Analysis]"
  | .historian => "[Historical Context]"
  | .scribe => "[Documentation]"

/-- The shared `execute` body of every built-in variant: push the user
message, build the labeled echo, push it as the assistant message, return
it.  `t1` and `t2` are the two `Date.now()` reads. -/
def builtinExecute (v : Variant) (input : String) (t1 t2 : Nat)
    (history : List AgentMessage) : String × List AgentMessage :=
  let h1 := history ++ [{ role := Role.user, content := input, timestamp := t1 }]
  let response := variantTag v ++ "\n" ++ input
  (response, h1 ++ [{ role := Role.assistant, content := response, timestamp := t2 }])

structure BuiltinAgent where
  id : String
  variant : Variant
  history : List AgentMessage

/-- `initializeDefaultAgents`: the four built-in variants, in construction
order, with their `crypto.randomUUID()` ids passed in. -/
def defaultAgents (i1 i2 i3 i4 : String) : List BuiltinAgent :=
  [{ id := i1, variant := Variant.architect, history := [] },
   { id := i2, variant := Variant.devilsAdvocate, history := [] },
   { id := i3, variant := Variant.historian, history := [] },
   { id := i4, variant := Variant.scribe, history := [] }]

/-- `AgentHub.getAgentByName`: first agent whose name matches, in registry
iteration order. -/
def getAgentByName (agents : List BuiltinAgent) (n : String) : Option BuiltinAgent :=
  agents.find? (fun a => variantName a.variant == n)

/-- `AgentHub.askArchitect`: resolve the agent named `The Architect`, throw
if absent, else run its `execute` (which mutates that stored agent) and
return the raw output. -/
def askArchitect (agents : List BuiltinAgent) (q : String) (t1 t2 : Nat) :
    Except String (String × List BuiltinAgent) :=
  match getAgentByName agents "The Architect" with
  | none => Except.error "Architect agent not available"
  | some a =>
      let r := builtinExecute a.variant q t1 t2 a.history
      Except.ok (r.1, agents.map (fun b => if b.id == a.id then { b with history := r.2 } else b))

/-! ### Budget ledger and synchronization-engine collaborators

These two collaborators are imported by the session-manager source but are
not part of the core under verification; the spec treats them as external
interfaces (spec section 6). -/

/-- Modelled from the spec: the budget ledger collaborator (`KeyVault`), whose
source is not part of the core.  Per spec section 6 it exposes
`getBudgetRemaining() → amount` and `recordSpend(cost) → accepted: boolean`;
its internals are out of scope, so it is modelled as the remaining amount with
the obvious spend-attempt semantics. -/
structure KeyVault where
  remaining : Rat
  deriving DecidableEq

def KeyVault.getBudgetRemaining (kv : KeyVault) : Rat := kv.remaining

def KeyVault.recordSpend (kv : KeyVault) (cost : Rat) : Bool × KeyVault :=
  if cost ≤ kv.remaining then (true, { remaining := kv.remaining - cost })
  else (false, kv)

/-- Modelled from the spec: the synchronization-engine collaborator
(`SyncEngine`), whose source is not part of the core.  Per spec section 6 it
is constructed with the host identifier and exposes at minimum
`removeCursor(participantId)`; the core observes it only through the
instructions it sends, so the model records the stream of `removeCursor`
instructions received. -/
structure SyncEngine where
  hostId : String
  removeCursorCalls : List String
  deriving DecidableEq

def SyncEngine.removeCursor (e : SyncEngine) (participantId : String) : SyncEngine :=
  { e with removeCursorCalls := e.removeCursorCalls ++ [participantId] }

/-! ### Session and participant registry (the unnamed session-manager source) -/

structure Participant where
  id : String
  username : String
  color : String
  isHost : Bool
  joinedAt : Nat
  lastSeen : Nat
  deriving DecidableEq

structure SessionConfig where
  name : String
  hostId : String
  budget : Rat
  allowGuests : Bool

structure Session where
  id : String
  name : String
  hostId : String
  participants : List (String × Participant)
  syncEngine : SyncEngine
  keyVault : KeyVault
  budget : Rat
  isActive : Bool

/-- The fixed 8-entry color palette of `Session.generateColor`. -/
def palette : List String :=
  ["#FF6B6B", "#4ECDC4", "#45B7D1", "#96CEB4",
   "#FFEAA7", "#DDA0DD", "#98D8C8", "#F7DC6F"]

/-- `Session.generateColor`: `colors[this.participants.size % colors.length]`. -/
def Session.generateColor (s : Session) : String :=
  palette.getD (s.participants.length % palette.length) ""

/-- `Session.addParticipant`: assigns `participant.color || generateColor()`
to the record's color field, then stores the record keyed by its id. -/
def Session.addParticipant (s : Session) (p : Participant) : Session :=
  let c := if p.color = "" then s.generateColor else p.color
  let p2 := { p with color := c }
  { s with participants := mapSet s.participants p2.id p2 }

/-- `Session.removeParticipant`: deletes from the map and (unconditionally)
instructs the synchronization engine to drop the cursor. -/
def Session.removeParticipant (s : Session) (participantId : String) : Session :=
  { s with participants := mapDelete s.participants participantId,
           syncEngine := s.syncEngine.removeCursor participantId }

def Session.getParticipant (s : Session) (pid : String) : Option Participant :=
  mapGet s.participants pid

def Session.getBudgetRemaining (s : Session) : Rat :=
  s.keyVault.getBudgetRemaining

def Session.recordAiUsage (s : Session) (cost : Rat) : Bool × Session :=
  let r := s.keyVault.recordSpend cost
  (r.1, { s with keyVault := r.2 })

/-- The source method `end` (a Lean keyword, hence the longer name here):
sets `isActive = false` and clears the participant map. -/
def Session.endSession (s : Session) : Session :=
  { s with isActive := false, participants := [] }

/-- The `Session` constructor.  `sid` stands for the randomly generated
`adjective-noun-number` id and `now` for the `Date.now()` reads; the host is
auto-enrolled as the first participant with the color generated while the map
is still empty. -/
def Session.create (config : SessionConfig) (keyVault : KeyVault) (sid : String)
    (now : Nat) : Session :=
  let s0 : Session :=
    { id := sid, name := config.name, hostId := config.hostId, participants := [],
      syncEngine := { hostId := config.hostId, removeCursorCalls := [] },
      keyVault := keyVault, budget := config.budget, isActive := true }
  s0.addParticipant
    { id := config.hostId, username := "Host", color := s0.generateColor,
      isHost := true, joinedAt := now, lastSeen := now }

/-- A sequence of `addParticipant` calls, in order. -/
def Session.addAll (s : Session) (ps : List Participant) : Session :=
  ps.foldl Session.addParticipant s

/-! ### Session manager -/

structure SessionManager where
  sessions : List (String × Session)
  keyVault : KeyVault

/-- The `createSession` argument type: `budget` is optional, and a present
value can still be falsy (`0`), in which case `config.budget || 5.00`
replaces it with the default. -/
structure CreateSessionConfig where
  name : String
  hostId : String
  allowGuests : Bool
  budget : Option Rat

def SessionManager.createSession (m : SessionManager) (config : CreateSessionConfig)
    (sid : String) (now : Nat) : Session × SessionManager :=
  let b : Rat :=
    match config.budget with
    | none => 5
    | some x => if x = 0 then 5 else x
  let s := Session.create
    { name := config.name, hostId := config.hostId, budget := b,
      allowGuests := config.allowGuests } m.keyVault sid now
  (s, { m with sessions := mapSet m.sessions sid s })

def SessionManager.getSession (m : SessionManager) (sessionId : String) : Option Session :=
  mapGet m.sessions sessionId

/-- The `joinSession` participant argument: a Participant stub without
`isHost`, `joinedAt`, `lastSeen`. -/
structure ParticipantStub where
  id : String
  username : String
  color : String

/-- `SessionManager.joinSession`: throws `Session ... not found` for an
unknown id (returning the manager unchanged), otherwise builds the full
Participant and delegates to the session's `addParticipant`; the stored
session is the mutated one. -/
def SessionManager.joinSession (m : SessionManager) (sessionId : String)
    (stub : ParticipantStub) (now : Nat) : Except String Session × SessionManager :=
  match mapGet m.sessions sessionId with
  | none => (Except.error ("Session " ++ sessionId ++ " not found"), m)
  | some s =>
      let s2 := s.addParticipant
        { id := stub.id, username := stub.username, color := stub.color,
          isHost := false, joinedAt := now, lastSeen := now }
      (Except.ok s2, { m with sessions := mapSet m.sessions sessionId s2 })

/-! ### Concrete fixtures used by witnesses and counterexamples -/

def agentC1w : HubAgent :=
  { id := "a1", name := "custom", exec := fun i => ExecResult.ok ("echo:" ++ i) }

def hubC1w : AgentHub := { agents := [("a1", agentC1w)], tasks := [] }

def agentC1c : HubAgent :=
  { id := "a1", name := "custom", exec := fun _ => ExecResult.ok "" }

def hubC1c : AgentHub := { agents := [("a1", agentC1c)], tasks := [] }

def agentC2w : HubAgent :=
  { id := "a2", name := "boomer", exec := fun _ => ExecResult.thrown (Thrown.errorObj "boom") }

def hubC2w : AgentHub := { agents := [("a2", agentC2w)], tasks := [] }

def agentC2c : HubAgent :=
  { id := "a2", name := "silent", exec := fun _ => ExecResult.thrown (Thrown.errorObj "") }

def hubC2c : AgentHub := { agents := [("a2", agentC2c)], tasks := [] }

def hubC3 : AgentHub := { agents := [], tasks := [] }

def sessC4 : Session :=
  { id := "s4", name := "n", hostId := "h",
    participants := [("h", { id := "h", username := "Host", color := "#FF6B6B",
                             isHost := true, joinedAt := 0, lastSeen := 0 })],
    syncEngine := { hostId := "h", removeCursorCalls := [] },
    keyVault := { remaining := 5 }, budget := 5, isActive := true }

def pC4 : Participant :=
  { id := "p", username := "alice", color := "#4ECDC4", isHost := false,
    joinedAt := 1, lastSeen := 1 }

def sessC5w : Session :=
  { id := "s5", name := "n", hostId := "h",
    participants := [("h", { id := "h", username := "Host", color := "#FF6B6B",
                             isHost := true, joinedAt := 0, lastSeen := 0 })],
    syncEngine := { hostId := "h", removeCursorCalls := [] },
    keyVault := { remaining := 5 }, budget := 5, isActive := true }

def sessC5c : Session :=
  { id := "s5c", name := "n", hostId := "h",
    participants := [("h", { id := "h", username := "Host", color := "#FF6B6B",
                             isHost := true, joinedAt := 0, lastSeen := 0 })],
    syncEngine := { hostId := "h", removeCursorCalls := [] },
    keyVault := { remaining := 5 }, budget := 5, isActive := true }

def sessC6w : Session :=
  { id := "s6", name := "n", hostId := "h", participants := [],
    syncEngine := { hostId := "h", removeCursorCalls := [] },
    keyVault := { remaining := 5 }, budget := 5, isActive := true }

def mkP (pid uname : String) : Participant :=
  { id := pid, username := uname, color := "", isHost := false,
    joinedAt := 0, lastSeen := 0 }

def psC6w : List Participant :=
  [mkP "a" "u0", mkP "b" "u1", mkP "c" "u2", mkP "d" "u3", mkP "e" "u4",
   mkP "f" "u5", mkP "g" "u6", mkP "h" "u7", mkP "i" "u8"]

def sessC6c : Session :=
  { id := "s6c", name := "n", hostId := "h", participants := [],
    syncEngine := { hostId := "h", removeCursorCalls := [] },
    keyVault := { remaining := 5 }, budget := 5, isActive := true }

def psC6c : List Participant :=
  [mkP "a" "u0", mkP "a" "u1", mkP "b" "u2"]

def sessC7 : Session :=
  { id := "s1", name := "n", hostId := "h",
    participants := [("h", { id := "h", username := "Host", color := "#FF6B6B",
                             isHost := true, joinedAt := 0, lastSeen := 0 })],
    syncEngine := { hostId := "h", removeCursorCalls := [] },
    keyVault := { remaining := 5 }, budget := 5, isActive := true }

def mgrC7 : SessionManager :=
  { sessions := [("s1", sessC7)], keyVault := { remaining := 5 } }

def stubC7 : ParticipantStub := { id := "p1", username := "alice", color := "" }

def sC10a : Session :=
  { id := "sa", name := "n", hostId := "h", participants := [],
    syncEngine := { hostId := "h", removeCursorCalls := [] },
    keyVault := { remaining := 3 }, budget := 10, isActive := true }

def sC10b : Session :=
  { id := "sb", name := "n", hostId := "h", participants := [],
    syncEngine := { hostId := "h", removeCursorCalls := [] },
    keyVault := { remaining := 3 }, budget := 5, isActive := true }

def mgrC10 : SessionManager := { sessions := [], keyVault := { remaining := 3 } }

/-! ### Lemmas about the map model -/

theorem mapGet_mapSet_self {α : Type} (m : List (String × α)) (k : String) (v : α) :
    mapGet (mapSet m k v) k = some v := by
  induction m with
  | nil => simp [mapSet, mapGet]
  | cons q m ih =>
    by_cases h : q.1 = k
    · simp [mapSet, h, mapGet]
    · simp [mapSet, h, mapGet, ih]

theorem mapGet_mapSet_ne {α : Type} (m : List (String × α)) (k k2 : String) (v : α)
    (h : k2 ≠ k) : mapGet (mapSet m k v) k2 = mapGet m k2 := by
  induction m with
  | nil => simp [mapSet, mapGet, Ne.symm h]
  | cons q m ih =>
    by_cases hq : q.1 = k
    · subst hq
      simp [mapSet, mapGet, Ne.symm h]
    · by_cases hq2 : q.1 = k2
      · subst hq2
        simp [mapSet, hq, mapGet]
      · simp [mapSet, hq, mapGet, hq2, ih]

theorem length_mapSet_of_absent {α : Type} (m : List (String × α)) (k : String) (v : α)
    (h : mapGet m k = none) : (mapSet m k v).length = m.length + 1 := by
  induction m with
  | nil => simp [mapSet]
  | cons q m ih =>
    by_cases hq : q.1 = k
    · simp [mapGet, hq] at h
    · simp [mapGet, hq] at h
      simp [mapSet, hq, ih h]

theorem mapGet_mapDelete_self {α : Type} (m : List (String × α)) (k : String) :
    mapGet (mapDelete m k) k = none := by
  induction m with
  | nil => rfl
  | cons q m ih =>
    by_cases hq : q.1 = k
    · simp [mapDelete, hq, ih]
    · simp [mapDelete, hq, mapGet, ih]

theorem mapDelete_of_absent {α : Type} (m : List (String × α)) (k : String)
    (h : mapGet m k = none) : mapDelete m k = m := by
  induction m with
  | nil => rfl
  | cons q m ih =>
    by_cases hq : q.1 = k
    · simp [mapGet, hq] at h
    · simp [mapGet, hq] at h
      simp [mapDelete, hq, ih h]

theorem strAppendEmpty (s : String) : s ++ "" = s := by
  cases s with
  | mk l =>
    show String.mk (l ++ []) = String.mk l
    rw [List.append_nil]

/-! ### Lemmas about runs of addParticipant -/

theorem addAll_stable (ps : List Participant) (s : Session) (pid : String)
    (h : ∀ p ∈ ps, p.id ≠ pid) :
    mapGet (Session.addAll s ps).participants pid = mapGet s.participants pid := by
  induction ps generalizing s with
  | nil => rfl
  | cons p ps ih =>
    have hstep : Session.addAll s (p :: ps) = Session.addAll (s.addParticipant p) ps := rfl
    rw [hstep, ih (s.addParticipant p) (fun q hq => h q (List.mem_cons_of_mem p hq))]
    simp only [Session.addParticipant]
    exact mapGet_mapSet_ne s.participants p.id pid _ (Ne.symm (h p (List.mem_cons_self p ps)))

/-- Color assignment along a run of `addParticipant` calls with empty colors
and fresh, pairwise-distinct ids: the call of index `i` stores its record
with the palette color indexed by the participant count at the time of that
insertion, which is the starting count plus `i`. -/
theorem addAll_palette (ps : List Participant) :
    ∀ (s : Session) (i : Nat) (hi : i < ps.length),
      (∀ p ∈ ps, p.color = "") →
      (ps.map Participant.id).Nodup →
      (∀ p ∈ ps, mapGet s.participants p.id = none) →
      mapGet (Session.addAll s ps).participants (ps.get ⟨i, hi⟩).id =
        some { ps.get ⟨i, hi⟩ with
               color := palette.getD ((s.participants.length + i) % 8) "" } := by
  induction ps with
  | nil =>
    intro s i hi
    exact absurd hi (Nat.not_lt_zero i)
  | cons p ps ih =>
    intro s i hi hc hn hf
    have hpc : p.color = "" := hc p (List.mem_cons_self p ps)
    have hn2 : p.id ∉ ps.map Participant.id ∧ (ps.map Participant.id).Nodup := by
      rw [List.map_cons] at hn
      exact List.nodup_cons.mp hn
    have hnotin : ∀ q ∈ ps, q.id ≠ p.id := fun q hq heq =>
      hn2.1 (heq ▸ List.mem_map_of_mem Participant.id hq)
    have hstep : Session.addAll s (p :: ps) = Session.addAll (s.addParticipant p) ps := rfl
    have hs1p : (s.addParticipant p).participants
        = mapSet s.participants p.id { p with color := s.generateColor } := by
      simp [Session.addParticipant, hpc]
    have hl : palette.length = 8 := rfl
    cases i with
    | zero =>
      rw [hstep]
      have hgoal : mapGet (Session.addAll (s.addParticipant p) ps).participants p.id
          = some { p with color := palette.getD ((s.participants.length + 0) % 8) "" } := by
        rw [addAll_stable ps (s.addParticipant p) p.id hnotin, hs1p, mapGet_mapSet_self]
        simp [Session.generateColor, hl]
      exact hgoal
    | succ j =>
      have hj : j < ps.length := Nat.lt_of_succ_lt_succ hi
      have hf1 : ∀ q ∈ ps, mapGet (s.addParticipant p).participants q.id = none := by
        intro q hq
        rw [hs1p, mapGet_mapSet_ne _ _ _ _ (hnotin q hq)]
        exact hf q (List.mem_cons_of_mem p hq)
      have hlen : (s.addParticipant p).participants.length = s.participants.length + 1 := by
        rw [hs1p]
        exact length_mapSet_of_absent _ _ _ (hf p (List.mem_cons_self p ps))
      have h2 := ih (s.addParticipant p) j hj
        (fun q hq => hc q (List.mem_cons_of_mem p hq)) hn2.2 hf1
      rw [hlen] at h2
      have harith : s.participants.length + 1 + j = s.participants.length + (j + 1) := by
        omega
      rw [harith] at h2
      rw [hstep]
      exact h2

/-! ### Claim C1 -/

/-- Claim C1 (amended): when `agentId` is registered and the agent's
`execute(input)` returns `out`, `submitTask` returns a Task with
`status = completed`, `result` set to the agent's output `out`,
`error` absent, `startTime = t1` and `endTime = t2`; given that the clock does
not go backwards between the two reads, `startTime ≤ endTime`; the result is
non-empty whenever the agent's output is non-empty. -/
theorem submitTask_success_spec (hub : AgentHub) (taskId agentId input : String)
    (t1 t2 : Nat) (agent : HubAgent) (out : String)
    (hA : mapGet hub.agents agentId = some agent)
    (hE : agent.exec input = ExecResult.ok out)
    (hT : t1 ≤ t2) :
    (AgentHub.submitTask hub taskId agentId input t1 t2).1
      = Except.ok { id := taskId, agentId := agentId, input := input,
                    status := TaskStatus.completed, result := some out, error := none,
                    startTime := some t1, endTime := some t2 } ∧
    t1 ≤ t2 ∧
    (out ≠ "" → (some out : Option String) ≠ some "") := by
  refine ⟨?_, hT, ?_⟩
  · simp [AgentHub.submitTask, hA, hE]
  · intro h heq
    exact h (Option.some.inj heq)

/-- Witness for C1: a concrete registered agent whose execution succeeds. -/
theorem submitTask_success_spec_witness :
    mapGet hubC1w.agents "a1" = some agentC1w ∧
    agentC1w.exec "hello" = ExecResult.ok "echo:hello" ∧
    (AgentHub.submitTask hubC1w "t0" "a1" "hello" 3 7).1
      = Except.ok { id := "t0", agentId := "a1", input := "hello",
                    status := TaskStatus.completed, result := some "echo:hello",
                    error := none, startTime := some 3, endTime := some 7 } :=
  ⟨rfl, rfl,
   (submitTask_success_spec hubC1w "t0" "a1" "hello" 3 7 agentC1w "echo:hello"
      rfl rfl (by decide)).1⟩

/-- Counterexample to C1 as stated: a registered agent whose `execute`
succeeds with the empty string.  The returned Task has `status = completed`
and `result` set to `""`, so the claimed unconditional non-emptiness of
`result` fails. -/
theorem submitTask_empty_result_counterexample :
    (AgentHub.submitTask hubC1c "t0" "a1" "hi" 0 1).1
      = Except.ok { id := "t0", agentId := "a1", input := "hi",
                    status := TaskStatus.completed, result := some "", error := none,
                    startTime := some 0, endTime := some 1 } := rfl

/-! ### Claim C2 -/

/-- Claim C2 (amended): when `agentId` is registered and the agent's
`execute(input)` throws, `submitTask` does not propagate the exception: it
returns (`Except.ok`) a Task with `status = failed` and `error` set to the
thrown error's message, or to `Unknown error` for a non-Error throw — a
message that is non-empty except when an Error carrying an empty message is
thrown — and `endTime` is set (to the second clock read, taken after the
outcome) on this failure exit path just as on the success path. -/
theorem submitTask_failure_spec (hub : AgentHub) (taskId agentId input : String)
    (t1 t2 : Nat) (agent : HubAgent) (e : Thrown)
    (hA : mapGet hub.agents agentId = some agent)
    (hE : agent.exec input = ExecResult.thrown e) :
    (AgentHub.submitTask hub taskId agentId input t1 t2).1
      = Except.ok { id := taskId, agentId := agentId, input := input,
                    status := TaskStatus.failed, result := none,
                    error := some (errMessage e),
                    startTime := some t1, endTime := some t2 } ∧
    (e = Thrown.nonError → errMessage e = "Unknown error") ∧
    (∀ msg, e = Thrown.errorObj msg → errMessage e = msg) := by
  refine ⟨?_, ?_, ?_⟩
  · simp [AgentHub.submitTask, hA, hE]
  · intro h
    subst h
    rfl
  · intro msg h
    subst h
    rfl

/-- Witness for C2: a concrete registered agent that throws an Error with
message `boom`. -/
theorem submitTask_failure_spec_witness :
    mapGet hubC2w.agents "a2" = some agentC2w ∧
    agentC2w.exec "x" = ExecResult.thrown (Thrown.errorObj "boom") ∧
    (AgentHub.submitTask hubC2w "t0" "a2" "x" 3 7).1
      = Except.ok { id := "t0", agentId := "a2", input := "x",
                    status := TaskStatus.failed, result := none, error := some "boom",
                    startTime := some 3, endTime := some 7 } :=
  ⟨rfl, rfl,
   (submitTask_failure_spec hubC2w "t0" "a2" "x" 3 7 agentC2w (Thrown.errorObj "boom")
      rfl rfl).1⟩

/-- Counterexample to C2 as stated: an agent that throws an Error whose
message is the empty string (`throw new Error()` in JavaScript).  The Task
ends with `status = failed` and `error` set to `""`: the error field is set,
but it is not the claimed non-empty message. -/
theorem submitTask_empty_error_counterexample :
    (AgentHub.submitTask hubC2c "t0" "a2" "x" 0 1).1
      = Except.ok { id := "t0", agentId := "a2", input := "x",
                    status := TaskStatus.failed, result := none, error := some "",
                    startTime := some 0, endTime := some 1 } := rfl

/-! ### Claim C3 -/

/-- Claim C3: `submitTask` with an unregistered `agentId` throws
`Agent ... not found` before creating any task record: the returned hub state
is exactly the input hub, so the task registry (size and contents) and the
agent registry are unchanged. -/
theorem submitTask_unknown_agent (hub : AgentHub) (taskId agentId input : String)
    (t1 t2 : Nat) (h : mapGet hub.agents agentId = none) :
    AgentHub.submitTask hub taskId agentId input t1 t2
      = (Except.error ("Agent " ++ agentId ++ " not found"), hub) := by
  simp [AgentHub.submitTask, h]

/-- Witness for C3: the claim applied to a hub with no registered agents. -/
theorem submitTask_unknown_agent_witness :
    AgentHub.submitTask hubC3 "t0" "ghost" "x" 0 1
      = (Except.error "Agent ghost not found", hubC3) :=
  submitTask_unknown_agent hubC3 "t0" "ghost" "x" 0 1 rfl

/-! ### Claim C4 -/

/-- Claim C4 (amended): `end()` sets `isActive = false`, discards all
participants, raises no error on repeated calls, and is idempotent — a second
`end()` leaves the session state exactly unchanged.  (The stronger part of
the original claim — that after `end()` no operation can mutate the session —
does not hold: see the counterexample.) -/
theorem endSession_spec (s : Session) :
    (Session.endSession s).isActive = false ∧
    (Session.endSession s).participants = [] ∧
    Session.endSession (Session.endSession s) = Session.endSession s :=
  ⟨rfl, rfl, rfl⟩

/-- Counterexample to C4 as stated: `addParticipant` carries no `isActive`
guard, so invoking it on an ended session still mutates the participant map
(it grows from empty to one entry) — the session is not operationally
terminal. -/
theorem endSession_not_terminal_counterexample :
    (Session.endSession sessC4).participants.length = 0 ∧
    ((Session.endSession sessC4).addParticipant pC4).participants.length = 1 :=
  ⟨rfl, rfl⟩

/-! ### Claim C5 -/

/-- Claim C5 (amended): `removeParticipant(id)` removes the participant from
the map (a subsequent `getParticipant(id)` returns not-found) and issues
exactly one cursor-drop instruction to the synchronization engine per call;
for an id absent from the map the participant map is left unchanged (the map
removal is idempotent), but the cursor-drop instruction is still issued, so
the call is not entirely free of effects. -/
theorem removeParticipant_spec (s : Session) (pid : String) :
    Session.getParticipant (s.removeParticipant pid) pid = none ∧
    (s.removeParticipant pid).syncEngine.removeCursorCalls
      = s.syncEngine.removeCursorCalls ++ [pid] ∧
    (Session.getParticipant s pid = none →
      (s.removeParticipant pid).participants = s.participants) := by
  refine ⟨?_, rfl, ?_⟩
  · exact mapGet_mapDelete_self s.participants pid
  · intro h
    exact mapDelete_of_absent s.participants pid h

/-- Witness for C5: removing the absent id `p9` from a concrete session. -/
theorem removeParticipant_spec_witness :
    Session.getParticipant (sessC5w.removeParticipant "p9") "p9" = none ∧
    (sessC5w.removeParticipant "p9").syncEngine.removeCursorCalls = ["p9"] ∧
    (sessC5w.removeParticipant "p9").participants = sessC5w.participants :=
  ⟨(removeParticipant_spec sessC5w "p9").1,
   (removeParticipant_spec sessC5w "p9").2.1,
   (removeParticipant_spec sessC5w "p9").2.2 (by decide)⟩

/-- Counterexample to C5 as stated: removing an id that is absent from the
participant map is not a no-op that changes nothing — the cursor-drop
instruction is still sent to the synchronization-engine collaborator
(its received-instruction stream changes from empty to one entry). -/
theorem removeParticipant_absent_counterexample :
    Session.getParticipant sessC5c "ghost" = none ∧
    (sessC5c.removeParticipant "ghost").syncEngine.removeCursorCalls
      ≠ sessC5c.syncEngine.removeCursorCalls :=
  ⟨rfl, by decide⟩

/-! ### Claim C6 -/

/-- Claim C6 (amended): for a run of `addParticipant` calls whose records
carry an empty color, starting from a session whose participant map is empty
and with pairwise-distinct ids, the Nth participant added (0-indexed) is
stored with its color field mutated to the palette color at index `N mod 8` —
the index being the participant count at the time of that insertion.  (With a
duplicated id an insertion overwrites instead of growing the map, so the
count at insertion — which is what the code indexes by — differs from N: see
the counterexample.) -/
theorem addParticipant_color_assignment (s : Session) (ps : List Participant)
    (i : Nat) (hi : i < ps.length)
    (hs : s.participants = [])
    (hc : ∀ p ∈ ps, p.color = "")
    (hn : (ps.map Participant.id).Nodup) :
    mapGet (Session.addAll s ps).participants (ps.get ⟨i, hi⟩).id =
      some { ps.get ⟨i, hi⟩ with color := palette.getD (i % 8) "" } := by
  have hf : ∀ p ∈ ps, mapGet s.participants p.id = none := by
    intro p _
    rw [hs]
    rfl
  have h := addAll_palette ps s i hi hc hn hf
  rw [hs] at h
  simpa using h

/-- Witness for C6: nine distinct empty-color participants; the ninth
(index 8) wraps around the palette and receives color index `8 mod 8 = 0`. -/
theorem addParticipant_color_assignment_witness :
    sessC6w.participants = [] ∧
    (∀ p ∈ psC6w, p.color = "") ∧
    (psC6w.map Participant.id).Nodup ∧
    mapGet (Session.addAll sessC6w psC6w).participants "i" =
      some { id := "i", username := "u8", color := "#FF6B6B", isHost := false,
             joinedAt := 0, lastSeen := 0 } :=
  ⟨rfl, by decide, by decide,
   addParticipant_color_assignment sessC6w psC6w 8 (by decide) rfl (by decide) (by decide)⟩

/-- Counterexample to C6 as stated: with a duplicated id in the sequence the
second call overwrites instead of growing the map, so the call of index 2
inserts at participant count 1 and receives palette color index 1
(`#4ECDC4`), not the claimed index `2 mod 8 = 2` (`#45B7D1`). -/
theorem addParticipant_color_counterexample :
    (∀ p ∈ psC6c, p.color = "") ∧
    Session.getParticipant (Session.addAll sessC6c psC6c) "b" =
      some { id := "b", username := "u2", color := "#4ECDC4", isHost := false,
             joinedAt := 0, lastSeen := 0 } ∧
    palette.getD (2 % 8) "" = "#45B7D1" ∧
    ("#4ECDC4" : String) ≠ "#45B7D1" :=
  ⟨by decide, rfl, rfl, by decide⟩

/-! ### Claim C7 -/

/-- Claim C7: `joinSession` with an unknown session id throws
`Session ... not found` and mutates no session (the manager state is returned
unchanged); with a known id it builds the full Participant from the stub with
`isHost = false` and the fresh `joinedAt`/`lastSeen` timestamps, stores it via
the session's `addParticipant`, and returns that session. -/
theorem joinSession_spec (m : SessionManager) (sid : String) (stub : ParticipantStub)
    (now : Nat) :
    (mapGet m.sessions sid = none →
      SessionManager.joinSession m sid stub now
        = (Except.error ("Session " ++ sid ++ " not found"), m)) ∧
    (∀ s, mapGet m.sessions sid = some s →
      SessionManager.joinSession m sid stub now
        = (Except.ok (s.addParticipant
             { id := stub.id, username := stub.username, color := stub.color,
               isHost := false, joinedAt := now, lastSeen := now }),
           { m with sessions := mapSet m.sessions sid (s.addParticipant
               { id := stub.id, username := stub.username, color := stub.color,
                 isHost := false, joinedAt := now, lastSeen := now }) })) := by
  constructor
  · intro h
    simp [SessionManager.joinSession, h]
  · intro s h
    simp [SessionManager.joinSession, h]

/-- Witness for C7: a concrete manager holding one session; the unknown id is
rejected with the manager unchanged, the known id stores the built
Participant through `addParticipant`. -/
theorem joinSession_spec_witness :
    SessionManager.joinSession mgrC7 "zzz" stubC7 0
      = (Except.error "Session zzz not found", mgrC7) ∧
    SessionManager.joinSession mgrC7 "s1" stubC7 5
      = (Except.ok (sessC7.addParticipant
           { id := "p1", username := "alice", color := "", isHost := false,
             joinedAt := 5, lastSeen := 5 }),
         { mgrC7 with sessions := mapSet mgrC7.sessions "s1" (sessC7.addParticipant
             { id := "p1", username := "alice", color := "", isHost := false,
               joinedAt := 5, lastSeen := 5 }) }) :=
  ⟨(joinSession_spec mgrC7 "zzz" stubC7 0).1 rfl,
   (joinSession_spec mgrC7 "s1" stubC7 5).2 sessC7 rfl⟩

/-! ### Claim C8 -/

/-- Claim C8: every built-in variant appends exactly one `user` message whose
content is the input, then exactly one `assistant` message whose content is
that variant's labeled echo of the input, and returns the echo; on a hub with
the default agents, `getAgentByName` applied to `The Architect` resolves the
Architect variant, and `askArchitect(q)` returns a string containing the
labeled echo of `q`. -/
theorem builtin_agents_spec :
    (∀ (v : Variant) (input : String) (t1 t2 : Nat) (h : List AgentMessage),
       builtinExecute v input t1 t2 h =
         (variantTag v ++ "\n" ++ input,
          h ++ [{ role := Role.user, content := input, timestamp := t1 },
                { role := Role.assistant, content := variantTag v ++ "\n" ++ input,
                  timestamp := t2 }])) ∧
    (∀ i1 i2 i3 i4 : String,
       (getAgentByName (defaultAgents i1 i2 i3 i4) "The Architect").map
           (fun a => a.variant) = some Variant.architect) ∧
    (∀ (i1 i2 i3 i4 q : String) (t1 t2 : Nat),
       ∃ pre post : String,
         (askArchitect (defaultAgents i1 i2 i3 i4) q t1 t2).map (fun r => r.1)
           = Except.ok (pre ++ (variantTag Variant.architect ++ "\n" ++ q) ++ post)) := by
  refine ⟨?_, ?_, ?_⟩
  · intro v input t1 t2 h
    simp [builtinExecute, List.append_assoc]
  · intro i1 i2 i3 i4
    rfl
  · intro i1 i2 i3 i4 q t1 t2
    refine ⟨"", "", ?_⟩
    rw [strAppendEmpty]
    rfl

/-! ### Claim C10 -/

/-- Claim C10: `getBudgetRemaining` and `recordAiUsage` depend only on the
shared ledger collaborator — any two sessions over equal ledger state return
identical results and have identical ledger effects, whatever their stored
`budget` fields; in particular `createSession` equips the session with the
manager's shared ledger regardless of the optional budget argument, so the
5.00 default applied when `budget` is absent or falsy (`0`) never influences
either operation. -/
theorem budget_ledger_only (s1 s2 : Session) (c : Rat) (m : SessionManager)
    (nm hid : String) (g : Bool) (b1 b2 : Option Rat) (sid : String) (now : Nat)
    (h : s1.keyVault = s2.keyVault) :
    (s1.getBudgetRemaining = s2.getBudgetRemaining ∧
     (s1.recordAiUsage c).1 = (s2.recordAiUsage c).1 ∧
     (s1.recordAiUsage c).2.keyVault = (s2.recordAiUsage c).2.keyVault) ∧
    ((SessionManager.createSession m
        { name := nm, hostId := hid, allowGuests := g, budget := b1 } sid now).1.keyVault
       = (SessionManager.createSession m
           { name := nm, hostId := hid, allowGuests := g, budget := b2 } sid now).1.keyVault ∧
     (SessionManager.createSession m
        { name := nm, hostId := hid, allowGuests := g, budget := none } sid now).1.budget = 5 ∧
     (SessionManager.createSession m
        { name := nm, hostId := hid, allowGuests := g, budget := some 0 } sid now).1.budget = 5) := by
  refine ⟨⟨?_, ?_, ?_⟩, rfl, rfl, ?_⟩
  · simp [Session.getBudgetRemaining, h]
  · simp [Session.recordAiUsage, h]
  · simp [Session.recordAiUsage, h]
  · simp [SessionManager.createSession, Session.create, Session.addParticipant]

/-- Witness for C10: two concrete sessions over the same ledger with
different stored budgets (10 versus 5) observe the same remaining budget and
the same spend outcome, and a `createSession` without a budget stores the
5.00 default without affecting the ledger. -/
theorem budget_ledger_only_witness :
    sC10a.budget = 10 ∧
    sC10b.budget = 5 ∧
    sC10a.keyVault = sC10b.keyVault ∧
    sC10a.getBudgetRemaining = sC10b.getBudgetRemaining ∧
    (sC10a.recordAiUsage 2).1 = (sC10b.recordAiUsage 2).1 ∧
    (SessionManager.createSession mgrC10
       { name := "n", hostId := "h", allowGuests := true, budget := none }
       "sX" 0).1.budget = 5 :=
  ⟨rfl, rfl, rfl,
   (budget_ledger_only sC10a sC10b 2 mgrC10 "n" "h" true none none "sX" 0 rfl).1.1,
   (budget_ledger_only sC10a sC10b 2 mgrC10 "n" "h" true none none "sX" 0 rfl).1.2.1,
   (budget_ledger_only sC10a sC10b 2 mgrC10 "n" "h" true none none "sX" 0 rfl).2.2.1⟩

end HiveMind
